import Mathlib

/-!
# urlconfig: a registry of factories keyed by URL scheme

A shallow embedding of `registry.go` (package `urlconfig`) together with the
properties of `Registry.Register` and `Registry.Configure`.

Conventions of the embedding.

* A Go `error` is an `Option GoError`; `none` is `nil`.
* A Go `map[string]V` is a function `String → Option V`: a lookup `m[k]` with
  the comma-ok form is the application `m k`, an assignment `m[k] = v`
  overrides the function at `k`.
* The calls are taken one at a time (sequential semantics), so acquiring and
  releasing `r.mux` has no effect on the values computed and the mutex is not
  part of the state.  `Register` is nevertheless split at the point where the
  source releases the read lock and takes the write lock.
* `net/url` is not part of the repository.  `url.Parse` is a parameter of
  `Configure`; the type `url.URL` is the record of its exported fields.
* A factory is arbitrary caller code.  Whatever it can observe or change
  outside the registry is a state of type `σ`, threaded through the call, so
  that "the factory was (not) invoked" is a statement about that state.
-/

namespace urlconfig

/-! ## Go errors -/

/-- Error values as far as `Error`, `Unwrap` and `errors.Is` can tell them
apart: `errorString` is what `errors.New` returns, `wrapError` is an error that
carries a message and wraps one other error (what `fmt.Errorf` returns for a
format with one `%w` verb, and the shape of `url.Error`).  Go compares the
pointers of two `errors.New` values, here two of them with the same text are
equal; the theorems below only rely on an error being equal to itself and on
an error differing from an error that wraps it. -/
inductive GoError where
  | errorString (s : String)
  | wrapError (msg : String) (err : GoError)
  deriving DecidableEq, Repr

namespace GoError

/-- The method `Error() string`. -/
def Error : GoError → String
  | errorString s => s
  | wrapError msg _ => msg

/-- The method `Unwrap() error`; `none` when the error wraps nothing. -/
def Unwrap : GoError → Option GoError
  | errorString _ => none
  | wrapError _ err => some err

end GoError

namespace errors

/-- The function `errors.New`. -/
def New (text : String) : GoError := GoError.errorString text

/-- The function `errors.Is` for a non-nil `err` and `target`: walk the
`Unwrap` chain of `err` and report whether one of its links equals `target`. -/
def Is : GoError → GoError → Bool
  | GoError.errorString s, target => decide (GoError.errorString s = target)
  | GoError.wrapError msg err, target =>
    decide (GoError.wrapError msg err = target) || Is err target

end errors

namespace fmt

/-- The function `fmt.Errorf` for a format with exactly one `%w` verb: `msg` is
the formatted text, `err` the operand of `%w`. -/
def Errorf (msg : String) (err : GoError) : GoError := GoError.wrapError msg err

end fmt

namespace io

/-- The sentinel `io.EOF`. -/
def EOF : GoError := errors.New "EOF"

end io

/-! ## net/url -/

/-- The type `url.Userinfo`. -/
structure Userinfo where
  username : String := ""
  password : String := ""
  passwordSet : Bool := false
  deriving DecidableEq, Repr

/-- The type `url.URL`. -/
structure URL where
  Scheme : String := ""
  Opaque : String := ""
  User : Option Userinfo := none
  Host : String := ""
  Path : String := ""
  RawPath : String := ""
  OmitHost : Bool := false
  ForceQuery : Bool := false
  RawQuery : String := ""
  Fragment : String := ""
  RawFragment : String := ""
  deriving DecidableEq, Repr

/-- The signature of `url.Parse`: a URL, or the (non-nil) error of the
parser. -/
abbrev UrlParse := String → Except GoError URL

/-! ## registry.go -/

/-- The type `Factory[T]`: a function of a context and a URL returning a value
and an error.  `Ctx` is `context.Context`; `σ` is the state outside the
registry that the function may read and write. -/
abbrev Factory (Ctx σ T : Type) := Ctx → URL → σ → (T × Option GoError) × σ

/-- The type `Registry[T]`: the map `factories`. -/
structure Registry (Ctx σ T : Type) where
  factories : String → Option (Factory Ctx σ T)

/-- The sentinel `ErrSchemeExists`. -/
def ErrSchemeExists : GoError := errors.New "already registered"

/-- The sentinel `ErrUnknownScheme`. -/
def ErrUnknownScheme : GoError := errors.New "unknown scheme"

/-- The function `NewRegistry`: the registry with the map made by `make`. -/
def NewRegistry {Ctx σ T : Type} : Registry Ctx σ T :=
  { factories := fun _ => none }

/-- First part of `Register` (under the read lock): the error to return when
`scheme` has an entry, `none` when it has not. -/
def registerProbe {Ctx σ T : Type} (r : Registry Ctx σ T) (scheme : String) :
    Option GoError :=
  match r.factories scheme with
  | some _ => some (fmt.Errorf (scheme ++ ": " ++ ErrSchemeExists.Error) ErrSchemeExists)
  | none => none

/-- Second part of `Register` (under the write lock): the assignment
`r.factories[scheme] = factory`. -/
def registerStore {Ctx σ T : Type} (r : Registry Ctx σ T) (scheme : String)
    (factory : Factory Ctx σ T) : Registry Ctx σ T :=
  { factories := fun k => if k = scheme then some factory else r.factories k }

/-- The method `Registry.Register`: the registry after the call and the error
returned. -/
def Register {Ctx σ T : Type} (r : Registry Ctx σ T) (scheme : String)
    (factory : Factory Ctx σ T) : Registry Ctx σ T × Option GoError :=
  match registerProbe r scheme with
  | some err => (r, some err)
  | none => (registerStore r scheme factory, none)

/-- What a call of `Configure` leaves behind: the two results `out` and `err`,
the registry after the call and the state outside the registry after the
call. -/
structure Outcome (Ctx σ T : Type) where
  out : T
  err : Option GoError
  registry : Registry Ctx σ T
  world : σ

/-- The method `Registry.Configure`.  `default` is the zero value of `T`
(the value of `var out T`). -/
def Configure {Ctx σ T : Type} [Inhabited T] (parse : UrlParse)
    (r : Registry Ctx σ T) (ctx : Ctx) (urlStr : String) (w : σ) : Outcome Ctx σ T :=
  let out : T := default
  match parse urlStr with
  | Except.error err => { out := out, err := some err, registry := r, world := w }
  | Except.ok u =>
    match r.factories u.Scheme with
    | none =>
      { out := out
        err := some (fmt.Errorf (ErrUnknownScheme.Error ++ ": " ++ u.Scheme) ErrUnknownScheme)
        registry := r
        world := w }
    | some factory =>
      let res := factory ctx u w
      { out := res.1.1, err := res.1.2, registry := r, world := res.2 }

/-! ## Sequences of calls -/

/-- One call on a registry by its holder. -/
inductive Call (Ctx σ T : Type) where
  | register (scheme : String) (factory : Factory Ctx σ T)
  | configure (ctx : Ctx) (urlStr : String)

/-- The registry and the outside state after one call. -/
def step {Ctx σ T : Type} [Inhabited T] (parse : UrlParse)
    (st : Registry Ctx σ T × σ) : Call Ctx σ T → Registry Ctx σ T × σ
  | Call.register scheme factory => ((Register st.1 scheme factory).1, st.2)
  | Call.configure ctx urlStr =>
    ((Configure parse st.1 ctx urlStr st.2).registry, (Configure parse st.1 ctx urlStr st.2).world)

/-- The registry and the outside state after a sequence of calls, made one
after the other. -/
def run {Ctx σ T : Type} [Inhabited T] (parse : UrlParse)
    (st : Registry Ctx σ T × σ) (calls : List (Call Ctx σ T)) : Registry Ctx σ T × σ :=
  calls.foldl (step parse) st

/-! ## A parser and factories to run the registry on

`sampleParse` and `sampleString` stand in for `url.Parse` and `URL.String` where a
concrete parser is needed to evaluate `Configure`.  They follow net/url on
inputs of the shape `scheme://host/path` and `scheme:opaque` without query,
fragment, user information or escapes; nothing is proved about net/url from
them. -/

/-- The scan of net/url `getScheme`: `seen` holds the characters already
scanned, latest first.  The result is the scheme and what follows its colon, or
no scheme and the whole input. -/
def sampleScheme (rawURL : List Char) :
    List Char → List Char → Except GoError (List Char × List Char)
  | _, [] => Except.ok ([], rawURL)
  | seen, c :: rest =>
    if c.isAlpha then sampleScheme rawURL (c :: seen) rest
    else if c.isDigit || c == '+' || c == '-' || c == '.' then
      if seen.isEmpty then Except.ok ([], rawURL) else sampleScheme rawURL (c :: seen) rest
    else if c == ':' then
      if seen.isEmpty then Except.error (errors.New "missing protocol scheme")
      else Except.ok (seen.reverse, rest)
    else Except.ok ([], rawURL)

/-- A parser for `scheme://host/path` and `scheme:opaque`.  A failure is the
`url.Error` of operation `parse`, which wraps the error of the scan. -/
def sampleParse : UrlParse := fun rawURL =>
  match sampleScheme rawURL.toList [] rawURL.toList with
  | Except.error err =>
    Except.error (GoError.wrapError ("parse \"" ++ rawURL ++ "\": " ++ err.Error) err)
  | Except.ok (scheme, rest) =>
    let scheme := String.mk (scheme.map Char.toLower)
    match rest with
    | '/' :: '/' :: authority =>
      Except.ok
        { Scheme := scheme
          Host := String.mk (authority.takeWhile (fun c => c != '/'))
          Path := String.mk (authority.dropWhile (fun c => c != '/')) }
    | '/' :: path => Except.ok { Scheme := scheme, Path := String.mk ('/' :: path) }
    | rest =>
      if scheme.isEmpty then Except.ok { Path := String.mk rest }
      else Except.ok { Scheme := scheme, Opaque := String.mk rest }

/-- The string form of a URL that has a scheme and a host. -/
def sampleString (u : URL) : String := u.Scheme ++ "://" ++ u.Host ++ u.Path

/-- The factory of `TestRegistry_Register`: the string form of the URL. -/
def registerTestFactory {Ctx σ : Type} (urlString : URL → String) : Factory Ctx σ String :=
  fun _ u w => ((urlString u, none), w)

/-- The factory of `TestRegistry_Configure`: `io.EOF` for the host `error`,
otherwise the string form of the URL. -/
def configureTestFactory {Ctx σ : Type} (urlString : URL → String) : Factory Ctx σ String :=
  fun _ u w => if u.Host = "error" then (("", some io.EOF), w) else ((urlString u, none), w)

/-- A factory that counts its invocations in the outside state and returns the
context it was given next to the host of the URL. -/
def countingFactory : Factory String Nat String :=
  fun ctx u calls => ((ctx ++ "@" ++ u.Host, none), calls + 1)

/-- A factory that fails with `io.EOF` and returns a non-zero value next to
the error. -/
def partialFactory {Ctx σ : Type} : Factory Ctx σ String :=
  fun _ u w => (("partial:" ++ u.Host, some io.EOF), w)

/-- The registry of `TestRegistry_Configure`: `example` is registered on a new
registry. -/
def testRegistry {Ctx σ : Type} : Registry Ctx σ String :=
  (Register NewRegistry "example" (configureTestFactory sampleString)).1

/-! ## Register as two atomic steps

Between `r.mux.RUnlock()` and `r.mux.Lock()` a call of `Register` holds no
lock, so another call may run there.  The stretch under the read lock and the
stretch under the write lock are each taken as one atomic step: the write lock
excludes every other holder, and the stretch under the read lock only reads
the map. -/

/-- Where a call of `Register` stands: before its check under the read lock,
past the check and before the write lock, or returned with its error. -/
inductive RegisterPc where
  | probe
  | store
  | returned (err : Option GoError)
  deriving DecidableEq, Repr

/-- A call of `Register` in progress: its arguments and where it stands. -/
structure RegisterCall (Ctx σ T : Type) where
  scheme : String
  factory : Factory Ctx σ T
  pc : RegisterPc

/-- The call `Register scheme factory` before its first step. -/
def RegisterCall.begin {Ctx σ T : Type} (scheme : String) (factory : Factory Ctx σ T) :
    RegisterCall Ctx σ T :=
  { scheme := scheme, factory := factory, pc := RegisterPc.probe }

/-- One atomic step of a call of `Register` on the registry `r`: the check
under the read lock, or the assignment under the write lock.  A call that has
returned does nothing. -/
def RegisterCall.advance {Ctx σ T : Type} (r : Registry Ctx σ T) (c : RegisterCall Ctx σ T) :
    Registry Ctx σ T × RegisterCall Ctx σ T :=
  match c.pc with
  | RegisterPc.probe =>
    match registerProbe r c.scheme with
    | some err => (r, { c with pc := RegisterPc.returned (some err) })
    | none => (r, { c with pc := RegisterPc.store })
  | RegisterPc.store =>
    (registerStore r c.scheme c.factory, { c with pc := RegisterPc.returned none })
  | RegisterPc.returned _ => (r, c)

/-- Two calls of `Register` in progress on one registry. -/
structure Race (Ctx σ T : Type) where
  registry : Registry Ctx σ T
  first : RegisterCall Ctx σ T
  second : RegisterCall Ctx σ T

/-- Which of the two calls takes the next atomic step. -/
inductive Turn where
  | first
  | second
  deriving DecidableEq, Repr

/-- The named call takes one atomic step. -/
def Race.turn {Ctx σ T : Type} (st : Race Ctx σ T) : Turn → Race Ctx σ T
  | Turn.first =>
    { st with registry := (st.first.advance st.registry).1
              first := (st.first.advance st.registry).2 }
  | Turn.second =>
    { st with registry := (st.second.advance st.registry).1
              second := (st.second.advance st.registry).2 }

/-- The state after the calls have taken their steps in the order `turns`. -/
def Race.play {Ctx σ T : Type} (st : Race Ctx σ T) (turns : List Turn) : Race Ctx σ T :=
  turns.foldl Race.turn st

/-- Two calls `Register s f1` and `Register s f2` started on the registry
`r`. -/
def Race.begin {Ctx σ T : Type} (r : Registry Ctx σ T) (s : String)
    (f1 f2 : Factory Ctx σ T) : Race Ctx σ T :=
  { registry := r, first := RegisterCall.begin s f1, second := RegisterCall.begin s f2 }

/-! ## Lemmas on errors and on the map -/

theorem errors_Is_Errorf (msg : String) (target : GoError) :
    errors.Is (fmt.Errorf msg target) target = true := by
  cases target <;> simp [fmt.Errorf, errors.Is]

theorem registerProbe_none {Ctx σ T : Type} (r : Registry Ctx σ T) (s : String)
    (h : r.factories s = none) : registerProbe r s = none := by
  simp [registerProbe, h]

theorem registerProbe_some {Ctx σ T : Type} (r : Registry Ctx σ T) (s : String)
    (f : Factory Ctx σ T) (h : r.factories s = some f) :
    registerProbe r s = some (fmt.Errorf (s ++ ": " ++ ErrSchemeExists.Error) ErrSchemeExists) := by
  simp [registerProbe, h]

theorem Register_of_absent {Ctx σ T : Type} (r : Registry Ctx σ T) (s : String)
    (f : Factory Ctx σ T) (h : r.factories s = none) :
    Register r s f = (registerStore r s f, none) := by
  simp [Register, registerProbe_none r s h]

theorem Register_of_present {Ctx σ T : Type} (r : Registry Ctx σ T) (s : String)
    (f g : Factory Ctx σ T) (h : r.factories s = some f) :
    Register r s g
      = (r, some (fmt.Errorf (s ++ ": " ++ ErrSchemeExists.Error) ErrSchemeExists)) := by
  simp [Register, registerProbe_some r s f h]

theorem Configure_of_parse_error {Ctx σ T : Type} [Inhabited T] (parse : UrlParse)
    (r : Registry Ctx σ T) (ctx : Ctx) (x : String) (w : σ) (e : GoError)
    (hp : parse x = Except.error e) :
    Configure parse r ctx x w = { out := default, err := some e, registry := r, world := w } := by
  simp [Configure, hp]

theorem Configure_of_absent {Ctx σ T : Type} [Inhabited T] (parse : UrlParse)
    (r : Registry Ctx σ T) (ctx : Ctx) (x : String) (w : σ) (u : URL)
    (hp : parse x = Except.ok u) (hn : r.factories u.Scheme = none) :
    Configure parse r ctx x w
      = { out := default
          err := some (fmt.Errorf (ErrUnknownScheme.Error ++ ": " ++ u.Scheme) ErrUnknownScheme)
          registry := r
          world := w } := by
  simp [Configure, hp, hn]

theorem Configure_of_present {Ctx σ T : Type} [Inhabited T] (parse : UrlParse)
    (r : Registry Ctx σ T) (ctx : Ctx) (x : String) (w : σ) (u : URL) (f : Factory Ctx σ T)
    (hp : parse x = Except.ok u) (hf : r.factories u.Scheme = some f) :
    Configure parse r ctx x w
      = { out := (f ctx u w).1.1, err := (f ctx u w).1.2, registry := r, world := (f ctx u w).2 } := by
  simp [Configure, hp, hf]

theorem Register_error_none {Ctx σ T : Type} (r : Registry Ctx σ T) (s : String)
    (f : Factory Ctx σ T) (h : (Register r s f).2 = none) : r.factories s = none := by
  cases hs : r.factories s with
  | none => rfl
  | some g => rw [Register_of_present r s g f hs] at h; cases h

theorem Register_keeps_entry {Ctx σ T : Type} (r : Registry Ctx σ T) (s t : String)
    (f g : Factory Ctx σ T) (h : r.factories s = some f) :
    (Register r t g).1.factories s = some f := by
  cases ht : r.factories t with
  | some k => rw [Register_of_present r t k g ht]; exact h
  | none =>
    rw [Register_of_absent r t g ht]
    have hne : s ≠ t := by
      intro hst
      rw [hst, ht] at h
      cases h
    simp [registerStore, hne, h]

theorem Configure_keeps_registry {Ctx σ T : Type} [Inhabited T] (parse : UrlParse)
    (r : Registry Ctx σ T) (ctx : Ctx) (x : String) (w : σ) :
    (Configure parse r ctx x w).registry = r := by
  cases hp : parse x with
  | error e => rw [Configure_of_parse_error parse r ctx x w e hp]
  | ok u =>
    cases hf : r.factories u.Scheme with
    | none => rw [Configure_of_absent parse r ctx x w u hp hf]
    | some f => rw [Configure_of_present parse r ctx x w u f hp hf]

theorem step_keeps_entry {Ctx σ T : Type} [Inhabited T] (parse : UrlParse)
    (st : Registry Ctx σ T × σ) (c : Call Ctx σ T) (s : String) (f : Factory Ctx σ T)
    (h : st.1.factories s = some f) : (step parse st c).1.factories s = some f := by
  cases c with
  | register t g => exact Register_keeps_entry st.1 s t f g h
  | configure ctx x =>
    show (Configure parse st.1 ctx x st.2).registry.factories s = some f
    rw [Configure_keeps_registry]
    exact h

theorem run_keeps_entry {Ctx σ T : Type} [Inhabited T] (parse : UrlParse)
    (calls : List (Call Ctx σ T)) (st : Registry Ctx σ T × σ) (s : String)
    (f : Factory Ctx σ T) (h : st.1.factories s = some f) :
    (run parse st calls).1.factories s = some f := by
  induction calls generalizing st with
  | nil => exact h
  | cons c cs ih => exact ih (step parse st c) (step_keeps_entry parse st c s f h)

theorem run_append {Ctx σ T : Type} [Inhabited T] (parse : UrlParse)
    (st : Registry Ctx σ T × σ) (a b : List (Call Ctx σ T)) :
    run parse st (a ++ b) = run parse (run parse st a) b := by
  simp [run, List.foldl_append]

theorem run_cons {Ctx σ T : Type} [Inhabited T] (parse : UrlParse)
    (st : Registry Ctx σ T × σ) (c : Call Ctx σ T) (cs : List (Call Ctx σ T)) :
    run parse st (c :: cs) = run parse (step parse st c) cs := rfl

/-! ## Register on a scheme without an entry -/

/-- C1: on every registry, `Register s f` for a scheme `s` without an entry
(the empty string included) returns the nil error, and in the registry after
the call `s` is bound to `f`. -/
theorem Register_unregistered {Ctx σ T : Type} (r : Registry Ctx σ T) (s : String)
    (f : Factory Ctx σ T) (h : r.factories s = none) :
    (Register r s f).2 = none ∧ (Register r s f).1.factories s = some f := by
  rw [Register_of_absent r s f h]
  simp [registerStore]

/-- C1 at the registry of the tests and the empty scheme. -/
theorem Register_unregistered_witness :
    (testRegistry : Registry String Nat String).factories "" = none
      ∧ (Register (testRegistry : Registry String Nat String) "" countingFactory).2 = none
      ∧ (Register (testRegistry : Registry String Nat String) "" countingFactory).1.factories ""
          = some countingFactory :=
  ⟨rfl, Register_unregistered testRegistry "" countingFactory rfl⟩

/-! ## Configure on a registered scheme -/

/-- C2: when the parser accepts `x` as `u` and the scheme of `u` is bound to
`f`, `Configure ctx x` returns the value and the error of `f ctx u`, computed
in the state in which `Configure` was called, and leaves behind the state that
`f` leaves behind. -/
theorem Configure_registered {Ctx σ T : Type} [Inhabited T] (parse : UrlParse)
    (r : Registry Ctx σ T) (ctx : Ctx) (x : String) (w : σ) (u : URL) (f : Factory Ctx σ T)
    (hp : parse x = Except.ok u) (hf : r.factories u.Scheme = some f) :
    ((Configure parse r ctx x w).out, (Configure parse r ctx x w).err) = (f ctx u w).1
      ∧ (Configure parse r ctx x w).world = (f ctx u w).2 := by
  rw [Configure_of_present parse r ctx x w u f hp hf]
  exact ⟨rfl, rfl⟩

/-- C2 on the test: with `example` registered for the factory of
`TestRegistry_Configure`, `Configure ctx "example://test"` returns
`"example://test"` and the nil error. -/
theorem Configure_registered_witness :
    sampleParse "example://test" = Except.ok { Scheme := "example", Host := "test" }
      ∧ (testRegistry : Registry String Nat String).factories "example"
          = some (configureTestFactory sampleString)
      ∧ ((Configure sampleParse (testRegistry : Registry String Nat String)
            "ctx" "example://test" 0).out,
          (Configure sampleParse (testRegistry : Registry String Nat String)
            "ctx" "example://test" 0).err) = ("example://test", none) :=
  ⟨rfl, rfl,
    (Configure_registered sampleParse testRegistry "ctx" "example://test" 0
      { Scheme := "example", Host := "test" } (configureTestFactory sampleString) rfl rfl).1⟩

/-! ## Register on a scheme with an entry -/

/-- C3: on every registry in which `s` is bound to `f`, `Register s g` returns
an error for which `errors.Is err ErrSchemeExists` holds, and the registry
after the call is the registry before it, with `s` bound to `f`. -/
theorem Register_registered {Ctx σ T : Type} (r : Registry Ctx σ T) (s : String)
    (f g : Factory Ctx σ T) (h : r.factories s = some f) :
    (∃ e, (Register r s g).2 = some e ∧ errors.Is e ErrSchemeExists = true)
      ∧ (Register r s g).1 = r
      ∧ (Register r s g).1.factories s = some f := by
  rw [Register_of_present r s f g h]
  exact ⟨⟨_, rfl, errors_Is_Errorf _ _⟩, rfl, h⟩

/-- C3 on the test: a second `Register "example"` with another factory. -/
theorem Register_registered_witness :
    (testRegistry : Registry String Nat String).factories "example"
        = some (configureTestFactory sampleString)
      ∧ (∃ e, (Register (testRegistry : Registry String Nat String) "example" countingFactory).2
            = some e ∧ errors.Is e ErrSchemeExists = true)
      ∧ (Register (testRegistry : Registry String Nat String) "example" countingFactory).1
          = testRegistry
      ∧ (Register (testRegistry : Registry String Nat String) "example" countingFactory).1.factories
            "example" = some (configureTestFactory sampleString) :=
  ⟨rfl, Register_registered testRegistry "example" (configureTestFactory sampleString)
    countingFactory rfl⟩

/-! ## Configure on a scheme without an entry -/

/-- C4: when the parser accepts `x` as `u` and the scheme of `u` has no entry,
`Configure` returns an error for which `errors.Is err ErrUnknownScheme` holds,
and the state outside the registry is the one before the call: no factory has
run, whatever the factories of the registry do to that state. -/
theorem Configure_unregistered {Ctx σ T : Type} [Inhabited T] (parse : UrlParse)
    (r : Registry Ctx σ T) (ctx : Ctx) (x : String) (w : σ) (u : URL)
    (hp : parse x = Except.ok u) (hn : r.factories u.Scheme = none) :
    (∃ e, (Configure parse r ctx x w).err = some e ∧ errors.Is e ErrUnknownScheme = true)
      ∧ (Configure parse r ctx x w).world = w := by
  rw [Configure_of_absent parse r ctx x w u hp hn]
  exact ⟨⟨_, rfl, errors_Is_Errorf _ _⟩, rfl⟩

/-- C4 on the test: `Configure ctx "nope://nope"` on a registry whose only
factory counts its invocations; the count stays at zero. -/
theorem Configure_unregistered_witness :
    sampleParse "nope://nope" = Except.ok { Scheme := "nope", Host := "nope" }
      ∧ (Register (NewRegistry : Registry String Nat String) "example" countingFactory).1.factories
          "nope" = none
      ∧ (∃ e, (Configure sampleParse
            (Register (NewRegistry : Registry String Nat String) "example" countingFactory).1
            "ctx" "nope://nope" 0).err = some e ∧ errors.Is e ErrUnknownScheme = true)
      ∧ (Configure sampleParse
            (Register (NewRegistry : Registry String Nat String) "example" countingFactory).1
            "ctx" "nope://nope" 0).world = 0 :=
  ⟨rfl, rfl,
    Configure_unregistered sampleParse
      (Register (NewRegistry : Registry String Nat String) "example" countingFactory).1
      "ctx" "nope://nope" 0 { Scheme := "nope", Host := "nope" } rfl rfl⟩

/-! ## Configure on a string the parser rejects -/

/-- C5, as stated, fails: the parser rejects `":"` with the error `e`, and the
error `Configure` returns is `e`, not an error that wraps `e`. -/
theorem Configure_rejected_not_wrapped :
    sampleParse ":"
        = Except.error (GoError.wrapError "parse \":\": missing protocol scheme"
            (GoError.errorString "missing protocol scheme"))
      ∧ (Configure sampleParse (NewRegistry : Registry String Nat String) "ctx" ":" 0).err
          = some (GoError.wrapError "parse \":\": missing protocol scheme"
              (GoError.errorString "missing protocol scheme"))
      ∧ ¬ ∃ msg, (Configure sampleParse (NewRegistry : Registry String Nat String) "ctx" ":" 0).err
          = some (GoError.wrapError msg
              (GoError.wrapError "parse \":\": missing protocol scheme"
                (GoError.errorString "missing protocol scheme"))) := by
  refine ⟨rfl, rfl, ?_⟩
  rintro ⟨msg, h⟩
  have h0 : (Configure sampleParse (NewRegistry : Registry String Nat String) "ctx" ":" 0).err
      = some (GoError.wrapError "parse \":\": missing protocol scheme"
          (GoError.errorString "missing protocol scheme")) := rfl
  rw [h0] at h
  simp at h

/-- C5, amended: when the parser rejects `x` with the error `e`, `Configure`
returns `e` itself next to the zero value, the state outside the registry is
the one before the call (no factory has run), and the value, the error and
that state are the same for every other registry. -/
theorem Configure_rejected {Ctx σ T : Type} [Inhabited T] (parse : UrlParse)
    (r : Registry Ctx σ T) (ctx : Ctx) (x : String) (w : σ) (e : GoError)
    (hp : parse x = Except.error e) :
    (Configure parse r ctx x w).err = some e
      ∧ (Configure parse r ctx x w).out = default
      ∧ (Configure parse r ctx x w).world = w
      ∧ ∀ r2 : Registry Ctx σ T,
          (Configure parse r2 ctx x w).err = (Configure parse r ctx x w).err
            ∧ (Configure parse r2 ctx x w).out = (Configure parse r ctx x w).out
            ∧ (Configure parse r2 ctx x w).world = (Configure parse r ctx x w).world := by
  rw [Configure_of_parse_error parse r ctx x w e hp]
  refine ⟨rfl, rfl, rfl, fun r2 => ?_⟩
  rw [Configure_of_parse_error parse r2 ctx x w e hp]
  exact ⟨rfl, rfl, rfl⟩

/-- C5, amended, on the string `":"` and the registry of the tests. -/
theorem Configure_rejected_witness :
    sampleParse ":"
        = Except.error (GoError.wrapError "parse \":\": missing protocol scheme"
            (GoError.errorString "missing protocol scheme"))
      ∧ (Configure sampleParse (testRegistry : Registry String Nat String) "ctx" ":" 0).err
          = some (GoError.wrapError "parse \":\": missing protocol scheme"
              (GoError.errorString "missing protocol scheme")) :=
  ⟨rfl, (Configure_rejected sampleParse testRegistry "ctx" ":" 0 _ rfl).1⟩

/-! ## Configure with a factory that fails -/

/-- C6: when the parser accepts `x` as `u`, the scheme of `u` is bound to `f`
and `f ctx u` returns the error `e`, the error `Configure` returns is `e`. -/
theorem Configure_factory_error {Ctx σ T : Type} [Inhabited T] (parse : UrlParse)
    (r : Registry Ctx σ T) (ctx : Ctx) (x : String) (w : σ) (u : URL) (f : Factory Ctx σ T)
    (e : GoError) (hp : parse x = Except.ok u) (hf : r.factories u.Scheme = some f)
    (he : (f ctx u w).1.2 = some e) :
    (Configure parse r ctx x w).err = some e := by
  rw [Configure_of_present parse r ctx x w u f hp hf]
  exact he

/-- C6 on the test: the factory returns `io.EOF` for the host `error`, and
`Configure ctx "example://error"` returns `io.EOF`. -/
theorem Configure_factory_error_witness :
    sampleParse "example://error" = Except.ok { Scheme := "example", Host := "error" }
      ∧ (Configure sampleParse (testRegistry : Registry String Nat String)
          "ctx" "example://error" 0).err = some io.EOF :=
  ⟨rfl,
    Configure_factory_error sampleParse testRegistry "ctx" "example://error" 0
      { Scheme := "example", Host := "error" } (configureTestFactory sampleString) io.EOF
      rfl rfl rfl⟩

/-! ## The value returned next to an error -/

/-- C7, as stated, fails: a factory that returns a non-zero value next to its
error gets that value, not the zero value, returned by `Configure`. -/
theorem Configure_error_value_not_zero :
    (Configure sampleParse
        (Register (NewRegistry : Registry String Nat String) "example" partialFactory).1
        "ctx" "example://test" 0).err = some io.EOF
      ∧ (Configure sampleParse
          (Register (NewRegistry : Registry String Nat String) "example" partialFactory).1
          "ctx" "example://test" 0).out = "partial:test"
      ∧ (Configure sampleParse
          (Register (NewRegistry : Registry String Nat String) "example" partialFactory).1
          "ctx" "example://test" 0).out ≠ default := by
  refine ⟨rfl, rfl, ?_⟩
  decide

/-- C7, amended: when `Configure` returns an error `e`, either the parser has
rejected the string or the scheme has no entry, and the value returned is the
zero value; or the scheme is bound to a factory `f`, and the value and the
error returned are the ones `f` returned. -/
theorem Configure_error_value {Ctx σ T : Type} [Inhabited T] (parse : UrlParse)
    (r : Registry Ctx σ T) (ctx : Ctx) (x : String) (w : σ) (e : GoError)
    (h : (Configure parse r ctx x w).err = some e) :
    ((parse x = Except.error e ∨ ∃ u, parse x = Except.ok u ∧ r.factories u.Scheme = none)
        ∧ (Configure parse r ctx x w).out = default)
      ∨ ∃ u f, parse x = Except.ok u ∧ r.factories u.Scheme = some f
          ∧ (f ctx u w).1 = ((Configure parse r ctx x w).out, some e) := by
  cases hp : parse x with
  | error pe =>
    rw [Configure_of_parse_error parse r ctx x w pe hp] at h ⊢
    simp only [Option.some.injEq] at h
    subst h
    exact Or.inl ⟨Or.inl rfl, rfl⟩
  | ok u =>
    cases hf : r.factories u.Scheme with
    | none =>
      rw [Configure_of_absent parse r ctx x w u hp hf]
      exact Or.inl ⟨Or.inr ⟨u, rfl, hf⟩, rfl⟩
    | some f =>
      rw [Configure_of_present parse r ctx x w u f hp hf] at h ⊢
      refine Or.inr ⟨u, f, rfl, hf, ?_⟩
      simp only at h
      exact Prod.ext rfl h

/-- C7, amended, on a factory that returns `"partial:test"` next to
`io.EOF`. -/
theorem Configure_error_value_witness :
    (Configure sampleParse
        (Register (NewRegistry : Registry String Nat String) "example" partialFactory).1
        "ctx" "example://test" 0).err = some io.EOF
      ∧ (((sampleParse "example://test" = Except.error io.EOF
            ∨ ∃ u, sampleParse "example://test" = Except.ok u
                ∧ (Register (NewRegistry : Registry String Nat String)
                    "example" partialFactory).1.factories u.Scheme = none)
          ∧ (Configure sampleParse
              (Register (NewRegistry : Registry String Nat String) "example" partialFactory).1
              "ctx" "example://test" 0).out = default)
        ∨ ∃ u f, sampleParse "example://test" = Except.ok u
            ∧ (Register (NewRegistry : Registry String Nat String)
                "example" partialFactory).1.factories u.Scheme = some f
            ∧ (f "ctx" u 0).1
                = ((Configure sampleParse
                    (Register (NewRegistry : Registry String Nat String)
                      "example" partialFactory).1
                    "ctx" "example://test" 0).out, some io.EOF)) :=
  ⟨rfl,
    Configure_error_value sampleParse
      (Register (NewRegistry : Registry String Nat String) "example" partialFactory).1
      "ctx" "example://test" 0 io.EOF rfl⟩

/-! ## Entries over the lifetime of a registry -/

/-- C8: start from `NewRegistry` and make the calls `pre` one after the other.
If `Register s f` then succeeds, `s` is bound to `f` after every further
sequence `post` of `Register` and `Configure` calls, and in every state of
the whole history in which `s` has an entry, that entry is `f`. -/
theorem registered_entry_persists {Ctx σ T : Type} [Inhabited T] (parse : UrlParse) (w0 : σ)
    (pre : List (Call Ctx σ T)) (s : String) (f : Factory Ctx σ T)
    (h : (Register (run parse (NewRegistry, w0) pre).1 s f).2 = none) :
    (∀ post : List (Call Ctx σ T),
        (run parse (NewRegistry, w0) (pre ++ Call.register s f :: post)).1.factories s = some f)
      ∧ ∀ (post before after : List (Call Ctx σ T)) (g : Factory Ctx σ T),
          before ++ after = pre ++ Call.register s f :: post →
          (run parse (NewRegistry, w0) before).1.factories s = some g → g = f := by
  have hbound : ∀ post : List (Call Ctx σ T),
      (run parse (NewRegistry, w0) (pre ++ Call.register s f :: post)).1.factories s
        = some f := by
    intro post
    rw [run_append, run_cons]
    apply run_keeps_entry
    show (Register (run parse (NewRegistry, w0) pre).1 s f).1.factories s = some f
    rw [Register_of_absent _ s f (Register_error_none _ s f h)]
    simp [registerStore]
  refine ⟨hbound, ?_⟩
  intro post before after g hsplit hg
  have hfull := run_keeps_entry parse after (run parse (NewRegistry, w0) before) s g hg
  rw [← run_append, hsplit, hbound post] at hfull
  exact (Option.some.inj hfull).symm

/-- C8 on a history: `example` is registered and configured, `nope` is
registered for the counting factory, then `nope` is registered again for
another factory and configured; `nope` is still bound to the counting
factory. -/
theorem registered_entry_persists_witness :
    (Register (run sampleParse ((NewRegistry : Registry String Nat String), 0)
        [Call.register "example" (configureTestFactory sampleString),
          Call.configure "ctx" "example://test"]).1 "nope" countingFactory).2 = none
      ∧ (run sampleParse ((NewRegistry : Registry String Nat String), 0)
          ([Call.register "example" (configureTestFactory sampleString),
              Call.configure "ctx" "example://test"]
            ++ Call.register "nope" countingFactory
              :: [Call.register "nope" partialFactory,
                  Call.configure "ctx" "nope://nope"])).1.factories "nope"
          = some countingFactory :=
  ⟨rfl,
    (registered_entry_persists sampleParse 0
      [Call.register "example" (configureTestFactory sampleString),
        Call.configure "ctx" "example://test"] "nope" countingFactory rfl).1
      [Call.register "nope" partialFactory, Call.configure "ctx" "nope://nope"]⟩

/-! ## The new registry -/

/-- C9: the registry of `NewRegistry` has no entry: every scheme `s` is
unbound, `Register s f` on it returns the nil error and binds `s` to `f`, and
`Configure` on a string the parser accepts returns an error for which
`errors.Is err ErrUnknownScheme` holds. -/
theorem NewRegistry_empty {Ctx σ T : Type} [Inhabited T] (parse : UrlParse) (s : String)
    (f : Factory Ctx σ T) (ctx : Ctx) (x : String) (w : σ) (u : URL)
    (hp : parse x = Except.ok u) :
    (NewRegistry : Registry Ctx σ T).factories s = none
      ∧ (Register (NewRegistry : Registry Ctx σ T) s f).2 = none
      ∧ (Register (NewRegistry : Registry Ctx σ T) s f).1.factories s = some f
      ∧ ∃ e, (Configure parse (NewRegistry : Registry Ctx σ T) ctx x w).err = some e
          ∧ errors.Is e ErrUnknownScheme = true := by
  refine ⟨rfl, ?_, ?_, ?_⟩
  · rw [Register_of_absent NewRegistry s f rfl]
  · rw [Register_of_absent NewRegistry s f rfl]
    simp [registerStore]
  · rw [Configure_of_absent parse NewRegistry ctx x w u hp rfl]
    exact ⟨_, rfl, errors_Is_Errorf _ _⟩

/-- C9 on the scheme `example` and the string `"example://test"`. -/
theorem NewRegistry_empty_witness :
    sampleParse "example://test" = Except.ok { Scheme := "example", Host := "test" }
      ∧ (Register (NewRegistry : Registry String Nat String) "example" countingFactory).2 = none
      ∧ ∃ e, (Configure sampleParse (NewRegistry : Registry String Nat String)
            "ctx" "example://test" 0).err = some e ∧ errors.Is e ErrUnknownScheme = true :=
  ⟨rfl,
    (NewRegistry_empty sampleParse "example" countingFactory "ctx" "example://test" 0
      { Scheme := "example", Host := "test" } rfl).2.1,
    (NewRegistry_empty sampleParse "example" countingFactory "ctx" "example://test" 0
      { Scheme := "example", Host := "test" } rfl).2.2.2⟩

/-! ## Configure and the map -/

/-- C10: for every parser, registry, context, string and outside state, the
registry after `Configure` is the registry before it, on each of its returns
(parse failure, unknown scheme, and the factory's success or error). -/
theorem Configure_registry_unchanged {Ctx σ T : Type} [Inhabited T] (parse : UrlParse)
    (r : Registry Ctx σ T) (ctx : Ctx) (x : String) (w : σ) :
    (Configure parse r ctx x w).registry = r :=
  Configure_keeps_registry parse r ctx x w

/-! ## The parser's error is returned as it is -/

theorem wrapError_ne_self (e : GoError) : ∀ msg : String, GoError.wrapError msg e ≠ e := by
  induction e with
  | errorString t => intro msg h; cases h
  | wrapError m inner ih =>
    intro msg h
    injection h with _ hinner
    exact ih m hinner

/-- C11: when the parser rejects `x` with the error `e`, the error `Configure`
returns is `e`, and it is not an error that wraps `e`. -/
theorem Configure_rejected_unwrapped {Ctx σ T : Type} [Inhabited T] (parse : UrlParse)
    (r : Registry Ctx σ T) (ctx : Ctx) (x : String) (w : σ) (e : GoError)
    (hp : parse x = Except.error e) :
    (Configure parse r ctx x w).err = some e
      ∧ ∀ msg : String, (Configure parse r ctx x w).err ≠ some (GoError.wrapError msg e) := by
  rw [Configure_of_parse_error parse r ctx x w e hp]
  refine ⟨rfl, fun msg h => ?_⟩
  exact wrapError_ne_self e msg (Option.some.inj h).symm

/-- C11 on the string `":"`, which the parser rejects for its missing
scheme. -/
theorem Configure_rejected_unwrapped_witness :
    sampleParse ":"
        = Except.error (GoError.wrapError "parse \":\": missing protocol scheme"
            (GoError.errorString "missing protocol scheme"))
      ∧ (Configure sampleParse (testRegistry : Registry String Nat String) "ctx" ":" 7).err
          = some (GoError.wrapError "parse \":\": missing protocol scheme"
              (GoError.errorString "missing protocol scheme")) :=
  ⟨rfl, (Configure_rejected_unwrapped sampleParse testRegistry "ctx" ":" 7 _ rfl).1⟩

/-! ## Two calls of Register at once -/

theorem RegisterCall_alone {Ctx σ T : Type} (r : Registry Ctx σ T) (s : String)
    (f : Factory Ctx σ T) :
    (RegisterCall.advance (RegisterCall.advance r (RegisterCall.begin s f)).1
        (RegisterCall.advance r (RegisterCall.begin s f)).2).1 = (Register r s f).1
      ∧ (RegisterCall.advance (RegisterCall.advance r (RegisterCall.begin s f)).1
          (RegisterCall.advance r (RegisterCall.begin s f)).2).2.pc
          = RegisterPc.returned (Register r s f).2 := by
  cases h : registerProbe r s <;>
    simp [RegisterCall.advance, RegisterCall.begin, Register, h]

/-- C12: with `Register` taken as two atomic steps, start `Register s f1` and
`Register s f2` on a registry in which `s` has no entry and let both make
their check before either makes its assignment.  Both calls are then past the
check, both return the nil error, and `s` ends bound to the factory of the
call that made its assignment last: `f2` when the first call assigns first,
`f1` when the second call assigns first. -/
theorem Register_race_overwrites {Ctx σ T : Type} (r : Registry Ctx σ T) (s : String)
    (f1 f2 : Factory Ctx σ T) (h : r.factories s = none) :
    ((Race.play (Race.begin r s f1 f2) [Turn.first, Turn.second]).first.pc = RegisterPc.store
        ∧ (Race.play (Race.begin r s f1 f2) [Turn.first, Turn.second]).second.pc
            = RegisterPc.store)
      ∧ ((Race.play (Race.begin r s f1 f2)
              [Turn.first, Turn.second, Turn.first, Turn.second]).first.pc
            = RegisterPc.returned none
          ∧ (Race.play (Race.begin r s f1 f2)
              [Turn.first, Turn.second, Turn.first, Turn.second]).second.pc
            = RegisterPc.returned none
          ∧ (Race.play (Race.begin r s f1 f2)
              [Turn.first, Turn.second, Turn.first, Turn.second]).registry.factories s
            = some f2)
      ∧ ((Race.play (Race.begin r s f1 f2)
              [Turn.first, Turn.second, Turn.second, Turn.first]).first.pc
            = RegisterPc.returned none
          ∧ (Race.play (Race.begin r s f1 f2)
              [Turn.first, Turn.second, Turn.second, Turn.first]).second.pc
            = RegisterPc.returned none
          ∧ (Race.play (Race.begin r s f1 f2)
              [Turn.first, Turn.second, Turn.second, Turn.first]).registry.factories s
            = some f1) := by
  have hprobe : registerProbe r s = none := registerProbe_none r s h
  simp [Race.play, Race.turn, Race.begin, RegisterCall.begin, RegisterCall.advance, hprobe,
    registerStore]

/-- C12 on the registry of the tests and the scheme `nope`: the counting
factory is assigned first and overwritten. -/
theorem Register_race_overwrites_witness :
    (testRegistry : Registry String Nat String).factories "nope" = none
      ∧ (Race.play (Race.begin (testRegistry : Registry String Nat String) "nope"
            countingFactory partialFactory)
          [Turn.first, Turn.second, Turn.first, Turn.second]).first.pc
          = RegisterPc.returned none
      ∧ (Race.play (Race.begin (testRegistry : Registry String Nat String) "nope"
            countingFactory partialFactory)
          [Turn.first, Turn.second, Turn.first, Turn.second]).second.pc
          = RegisterPc.returned none
      ∧ (Race.play (Race.begin (testRegistry : Registry String Nat String) "nope"
            countingFactory partialFactory)
          [Turn.first, Turn.second, Turn.first, Turn.second]).registry.factories "nope"
          = some partialFactory :=
  ⟨rfl,
    (Register_race_overwrites (testRegistry : Registry String Nat String) "nope"
      countingFactory partialFactory rfl).2.1⟩

/-! ## The messages of the two errors -/

/-- C13: on every registry in which `s` has an entry, the error of
`Register s g` has the message `s` followed by `": already registered"`; and
on every registry (the new one included), when the parser accepts `x` as `u`
and the scheme of `u` has no entry, the error of `Configure` has the message
`"unknown scheme: "` followed by that scheme.  The two halves are about
registries of their own. -/
theorem registry_error_messages {Ctx σ T : Type} [Inhabited T] :
    (∀ (r : Registry Ctx σ T) (s : String) (f g : Factory Ctx σ T),
        r.factories s = some f →
        ∃ e, (Register r s g).2 = some e ∧ e.Error = s ++ ": already registered")
      ∧ ∀ (parse : UrlParse) (r : Registry Ctx σ T) (ctx : Ctx) (x : String) (w : σ) (u : URL),
          parse x = Except.ok u → r.factories u.Scheme = none →
          ∃ e, (Configure parse r ctx x w).err = some e
            ∧ e.Error = "unknown scheme: " ++ u.Scheme := by
  constructor
  · intro r s f g hs
    rw [Register_of_present r s f g hs]
    refine ⟨_, rfl, ?_⟩
    show s ++ ": " ++ "already registered" = s ++ ": already registered"
    rw [String.append_assoc]
    rfl
  · intro parse r ctx x w u hp hn
    rw [Configure_of_absent parse r ctx x w u hp hn]
    exact ⟨_, rfl, rfl⟩

/-- C13 on the tests: `Register "example"` a second time on the registry of
the tests, and `Configure` on `"nope://nope"`, on the new registry and on the
registry of the tests. -/
theorem registry_error_messages_witness :
    (testRegistry : Registry String Nat String).factories "example"
        = some (configureTestFactory sampleString)
      ∧ sampleParse "nope://nope" = Except.ok { Scheme := "nope", Host := "nope" }
      ∧ (∃ e, (Register (testRegistry : Registry String Nat String) "example"
            countingFactory).2 = some e ∧ e.Error = "example: already registered")
      ∧ (∃ e, (Configure sampleParse (NewRegistry : Registry String Nat String)
            "ctx" "nope://nope" 0).err = some e ∧ e.Error = "unknown scheme: nope")
      ∧ ∃ e, (Configure sampleParse (testRegistry : Registry String Nat String)
            "ctx" "nope://nope" 0).err = some e ∧ e.Error = "unknown scheme: nope" :=
  ⟨rfl, rfl,
    registry_error_messages.1 (testRegistry : Registry String Nat String) "example"
      (configureTestFactory sampleString) countingFactory rfl,
    registry_error_messages.2 sampleParse (NewRegistry : Registry String Nat String)
      "ctx" "nope://nope" 0 { Scheme := "nope", Host := "nope" } rfl rfl,
    registry_error_messages.2 sampleParse (testRegistry : Registry String Nat String)
      "ctx" "nope://nope" 0 { Scheme := "nope", Host := "nope" } rfl rfl⟩

/-! ## Register and the other schemes -/

/-- C14: on every registry in which `s` has no entry, `Register s f` leaves
every scheme `t` other than `s` as it was (bound to the same factory, or
without an entry), and the schemes with an entry after the call are `s` and
the schemes with an entry before it. -/
theorem Register_other_schemes {Ctx σ T : Type} (r : Registry Ctx σ T) (s : String)
    (f : Factory Ctx σ T) (h : r.factories s = none) :
    (∀ t : String, t ≠ s → (Register r s f).1.factories t = r.factories t)
      ∧ ∀ k : String, ((Register r s f).1.factories k).isSome = true
          ↔ (k = s ∨ (r.factories k).isSome = true) := by
  rw [Register_of_absent r s f h]
  constructor
  · intro t ht
    simp [registerStore, ht]
  · intro k
    by_cases hk : k = s
    · simp [registerStore, hk]
    · simp [registerStore, hk]

/-- C14 on the registry of the tests and the new scheme `nope`: `example`
keeps its factory and `other` stays without an entry. -/
theorem Register_other_schemes_witness :
    (testRegistry : Registry String Nat String).factories "nope" = none
      ∧ (Register (testRegistry : Registry String Nat String) "nope"
          countingFactory).1.factories "example" = some (configureTestFactory sampleString)
      ∧ (Register (testRegistry : Registry String Nat String) "nope"
          countingFactory).1.factories "other" = none :=
  ⟨rfl,
    (Register_other_schemes (testRegistry : Registry String Nat String) "nope"
      countingFactory rfl).1 "example" (by decide),
    (Register_other_schemes (testRegistry : Registry String Nat String) "nope"
      countingFactory rfl).1 "other" (by decide)⟩

/-! ## Configure looks up the scheme as the parser yields it -/

/-- C15: let the parser accept `x` as `u`, and put a factory `g` into the map
of `r` under a key `k` other than the scheme of `u`.  The value, the error and
the outside state that `Configure` returns are the same with and without `g`;
with a factory `f` at the scheme of `u` they are those of `f ctx u`; and with
no entry at the scheme of `u`, `Configure` returns an error for which
`errors.Is err ErrUnknownScheme` holds, next to the zero value, and the
outside state is the one before the call. -/
theorem Configure_exact_scheme {Ctx σ T : Type} [Inhabited T] (parse : UrlParse)
    (r : Registry Ctx σ T) (ctx : Ctx) (x : String) (w : σ) (u : URL) (k : String)
    (g : Factory Ctx σ T) (hp : parse x = Except.ok u) (hk : k ≠ u.Scheme) :
    ((Configure parse (registerStore r k g) ctx x w).out = (Configure parse r ctx x w).out
        ∧ (Configure parse (registerStore r k g) ctx x w).err = (Configure parse r ctx x w).err
        ∧ (Configure parse (registerStore r k g) ctx x w).world
            = (Configure parse r ctx x w).world)
      ∧ (∀ f : Factory Ctx σ T, r.factories u.Scheme = some f →
          ((Configure parse (registerStore r k g) ctx x w).out,
              (Configure parse (registerStore r k g) ctx x w).err) = (f ctx u w).1
            ∧ (Configure parse (registerStore r k g) ctx x w).world = (f ctx u w).2)
      ∧ (r.factories u.Scheme = none →
          (∃ e, (Configure parse (registerStore r k g) ctx x w).err = some e
              ∧ errors.Is e ErrUnknownScheme = true)
            ∧ (Configure parse (registerStore r k g) ctx x w).out = default
            ∧ (Configure parse (registerStore r k g) ctx x w).world = w) := by
  have hsame : (registerStore r k g).factories u.Scheme = r.factories u.Scheme := by
    simp [registerStore, Ne.symm hk]
  refine ⟨?_, ?_, ?_⟩
  · cases hf : r.factories u.Scheme with
    | none =>
      rw [Configure_of_absent parse r ctx x w u hp hf,
        Configure_of_absent parse _ ctx x w u hp (hsame.trans hf)]
      exact ⟨rfl, rfl, rfl⟩
    | some f =>
      rw [Configure_of_present parse r ctx x w u f hp hf,
        Configure_of_present parse _ ctx x w u f hp (hsame.trans hf)]
      exact ⟨rfl, rfl, rfl⟩
  · intro f hf
    rw [Configure_of_present parse _ ctx x w u f hp (hsame.trans hf)]
    exact ⟨rfl, rfl⟩
  · intro hn
    rw [Configure_of_absent parse _ ctx x w u hp (hsame.trans hn)]
    exact ⟨⟨_, rfl, errors_Is_Errorf _ _⟩, rfl, rfl⟩

/-- C15 on letter case: the counting factory is registered under `Example`,
the parser yields the scheme `example` for `"Example://test"`, and `Configure`
returns an error matching `ErrUnknownScheme` with the count still at zero. -/
theorem Configure_exact_scheme_witness :
    sampleParse "Example://test" = Except.ok { Scheme := "example", Host := "test" }
      ∧ (Register (NewRegistry : Registry String Nat String) "Example" countingFactory)
          = (registerStore NewRegistry "Example" countingFactory, none)
      ∧ (∃ e, (Configure sampleParse
            (registerStore (NewRegistry : Registry String Nat String) "Example" countingFactory)
            "ctx" "Example://test" 0).err = some e ∧ errors.Is e ErrUnknownScheme = true)
      ∧ (Configure sampleParse
          (registerStore (NewRegistry : Registry String Nat String) "Example" countingFactory)
          "ctx" "Example://test" 0).out = ""
      ∧ (Configure sampleParse
          (registerStore (NewRegistry : Registry String Nat String) "Example" countingFactory)
          "ctx" "Example://test" 0).world = 0 :=
  ⟨rfl, rfl,
    (Configure_exact_scheme sampleParse (NewRegistry : Registry String Nat String)
      "ctx" "Example://test" 0 { Scheme := "example", Host := "test" } "Example"
      countingFactory rfl (by decide)).2.2 rfl⟩

end urlconfig
